import Mathlib

/-!
Verification development for the `fnc-app-stgmail` monthly Azure cost report
function app.  The repository holds two near-duplicate Azure Function scripts:

* `src/MonthlyReport/__init__.py` (storage + email delivery), called V1 below;
* `src/MonthlyReport/__init__ (3).py` (email-only delivery), called V3 below.

The shallow embedding below translates the date-range calculator
(`get_previous_month_range`), the cost fetcher (`fetch_cost_for_subscription`),
the CSV renderer (`generate_csv`, both variants) and the configuration gate of
`main` into Lean.  Python floats are modelled as exact rationals plus a NaN
element (`PyF`); `round(x, 2)` is modelled as round-half-to-even on the exact
rational value, which agrees with the float behaviour away from
representation-induced ties; Python's shortest-round-trip float printing is
modelled for two-decimal values of moderate magnitude (below 10^15, where the
shortest decimal representation of such a float is the value itself with
trailing zeros trimmed).
-/

namespace MonthlyReport

/-- A Python float value as the cost pipeline uses it: either a finite value
(modelled exactly as a rational) or NaN.  Infinities never arise in the
claims under study and are omitted. -/
inductive PyF where
  | fin (q : ℚ)
  | nan
deriving DecidableEq

/-- Python float addition restricted to `PyF`: NaN is absorbing, finite
values add exactly. -/
def addF : PyF → PyF → PyF
  | PyF.fin a, PyF.fin b => PyF.fin (a + b)
  | _, _ => PyF.nan

/-- The Python comparison `total_cost > 0`: False on NaN (any comparison with
NaN is False in Python). -/
def posF : PyF → Bool
  | PyF.fin q => decide (0 < q)
  | PyF.nan => false

/-- Round-half-to-even to an integer, the rule Python's builtin `round`
applies (on the exact value; float `round` applies it to the binary value,
which agrees except on ties manufactured by binary representation error). -/
def roundHE (q : ℚ) : ℤ :=
  let f : ℤ := ⌊q⌋
  let r : ℚ := q - f
  if r < 1/2 then f
  else if 1/2 < r then f + 1
  else if f % 2 = 0 then f else f + 1

/-- One digit character. Used by the embedded decimal printers; arguments are
always below 10 where it is applied. -/
def digitChar : Nat → Char
  | 0 => '0' | 1 => '1' | 2 => '2' | 3 => '3' | 4 => '4'
  | 5 => '5' | 6 => '6' | 7 => '7' | 8 => '8' | _ => '9'

/-- Fuel-driven decimal digit expansion of a natural number (most significant
digit first).  The fuel `n+1` passed by `natToDecList` always suffices. -/
def natToDecGo : Nat → Nat → List Char
  | 0, _ => []
  | fuel + 1, n =>
      if n < 10 then [digitChar n]
      else natToDecGo fuel (n / 10) ++ [digitChar (n % 10)]

/-- Decimal digits of a natural number, as Python's `str` prints it. -/
def natToDecList (n : Nat) : List Char := natToDecGo (n + 1) n

/-- Decimal rendering of a natural number as a string. -/
def natToDec (n : Nat) : String := String.mk (natToDecList n)

/-- Exactly two decimal digits of `k` (used only for `k < 100`), as Python
prints the fractional part of a two-decimal fixed-point number. -/
def pad2List (k : Nat) : List Char := [digitChar (k / 10), digitChar (k % 10)]

/-- The characters Python's decimal printers can emit for a finite float in
fixed-point form: digits, the decimal point and a minus sign.  Scientific
output would additionally need an exponent marker, which is not in this set. -/
def decimalChars : List Char :=
  ['0', '1', '2', '3', '4', '5', '6', '7', '8', '9', '.', '-']

/-- Model of Python's `str(float)` (shortest round-trip printing) for a value
that is an integer number of hundredths, `n/100`: trailing zeros of the
fraction are trimmed but at least one fractional digit is kept, e.g.
`str(round(0.0, 2)) = "0.0"`, `str(round(2.5, 2)) = "2.5"`,
`str(round(1.256, 2)) = "1.26"`.  Faithful for magnitudes below 10^15, where
the shortest decimal printing of the float nearest `n/100` is that decimal
itself; huge magnitudes (which Python would print in scientific form) do not
arise in the claims. -/
def pyReprCentList (n : ℤ) : List Char :=
  let m : Nat := n.natAbs
  (if n < 0 then ['-'] else []) ++ natToDecList (m / 100) ++ '.' ::
    (if m % 100 = 0 then ['0']
     else if m % 10 = 0 then [digitChar (m / 10 % 10)]
     else pad2List (m % 100))

/-- V1 cost cell: the Python expression `str(round(total_cost, 2))` (the csv
module stringifies the float that `round` returns).  `round(nan, 2)` is `nan`
and prints as `"nan"`. -/
def cellV1 : PyF → String
  | PyF.nan => "nan"
  | PyF.fin q => String.mk (pyReprCentList (roundHE (100 * q)))

/-- V3 cost cell: the Python format `f"{total_cost:.2f}"`: fixed-point with
exactly two fractional digits (round-half-to-even), `"nan"` on NaN. -/
def format2f : PyF → String
  | PyF.nan => "nan"
  | PyF.fin q =>
      let n : ℤ := roundHE (100 * q)
      let m : Nat := n.natAbs
      String.mk ((if n < 0 then ['-'] else []) ++
        natToDecList (m / 100) ++ '.' :: pad2List (m % 100))

/-- The `properties` object consumed from a cost-query response: the renderer
reads only `rows` (a list of rows of numeric cells); `columns` is carried
along but never inspected. -/
structure CostData where
  rows : List (List PyF)
  columns : List String
deriving DecidableEq

/-- The cost-data object the fetcher returns on every failure path:
`{"properties": {"rows": [], "columns": []}}`. -/
def emptyCostData : CostData := ⟨[], []⟩

/-- One element of `all_costs_data` as `main` assembles it: subscription
name, subscription id and the fetched cost data. -/
structure SubData where
  subscription_name : String
  subscription_id : String
  cost_data : CostData
deriving DecidableEq

/-- The outcome of the one HTTP POST `fetch_cost_for_subscription` performs,
as the surrounding Python code can observe it: a timeout, another transport
error (any `requests` exception), or a response with a status code and a
body that either parses as a cost-data JSON object or does not. -/
inductive FetchOutcome where
  | timeout
  | reqError
  | ok (status : Nat) (parsed : Option CostData)
deriving DecidableEq

/-- The fetcher `fetch_cost_for_subscription` (identical in both variants, lines
134-181): every exception path is caught and converted to the empty
cost-data object, a non-200 status returns the empty object, and a 200
response returns its parsed body as-is.  Totality of this function is the
embedding of the "never throws" contract: every outcome of the underlying
request is mapped to a returned value. -/
def fetch_cost_for_subscription : FetchOutcome → CostData
  | FetchOutcome.timeout => emptyCostData
  | FetchOutcome.reqError => emptyCostData
  | FetchOutcome.ok status parsed =>
      if status ≠ 200 then emptyCostData
      else
        match parsed with
        | some d => d
        | none => emptyCostData

/-- Outcomes on which the fetch did not obtain a usable response: timeout,
transport error, or a non-success status code. -/
def FetchOutcome.failed : FetchOutcome → Prop
  | FetchOutcome.timeout => True
  | FetchOutcome.reqError => True
  | FetchOutcome.ok status _ => status ≠ 200

/-- Outcomes the spec's fetcher contract maps to a no-data result: any
failure, a body that does not parse, or a successful response whose result
set is empty. -/
def FetchOutcome.noData : FetchOutcome → Prop
  | FetchOutcome.timeout => True
  | FetchOutcome.reqError => True
  | FetchOutcome.ok status parsed =>
      status ≠ 200 ∨ parsed = none ∨ ∃ d, parsed = some d ∧ d.rows = []

/-- V1 cost/status extraction (`generate_csv`, `__init__.py` lines 204-210):
empty `rows` means no data (cost forced to `0.0`); otherwise the first cell
of the first row is the cost (`0.0` if the first row is empty) and the
status is `"Active"` for positive cost, else `"No charges"`. -/
def extractV1 (cd : CostData) : PyF × String :=
  match cd.rows with
  | [] => (PyF.fin 0, "No usage data")
  | r :: _ =>
      let c : PyF := match r with | [] => PyF.fin 0 | x :: _ => x
      (c, if posF c then "Active" else "No charges")

/-- V3 cost/status extraction (`__init__ (3).py` lines 204-211): same cost
extraction, but the status is `"No Cost Data"` for empty `rows` and
`"Success"` for any non-empty `rows`, regardless of the cost value. -/
def extractV3 (cd : CostData) : PyF × String :=
  match cd.rows with
  | [] => (PyF.fin 0, "No Cost Data")
  | r :: _ =>
      let c : PyF := match r with | [] => PyF.fin 0 | x :: _ => x
      (c, "Success")

/-- The cost the renderer attributes to one subscription (identical in both
variants). -/
def costOf (d : SubData) : PyF := (extractV1 d.cost_data).1

/-- The running total `total_cost_all`: starts at `0.0` and accumulates each
subscription's unrounded cost with float addition. -/
def totalAll (results : List SubData) : PyF :=
  results.foldl (fun acc d => addF acc (costOf d)) (PyF.fin 0)

/-- Whether Python's `csv.writer` (default dialect, QUOTE_MINIMAL) must quote
a field: it contains the delimiter, the quote character, or a CR/LF. -/
def fieldNeedsQuote (s : String) : Bool :=
  s.data.any (fun c => c == ',' || c == '"' || c == '\r' || c == '\n')

/-- Double every quote character, the csv escaping rule. -/
def escapeQuotes (l : List Char) : List Char :=
  l.foldr (fun c acc => if c = '"' then '"' :: '"' :: acc else c :: acc) []

/-- One csv field as `csv.writer` emits it. -/
def encodeField (s : String) : String :=
  if fieldNeedsQuote s then String.mk ('"' :: escapeQuotes s.data ++ ['"']) else s

/-- One `writerow` call: fields joined by commas, terminated by CRLF (the
default `lineterminator` of the csv module). -/
def encodeRow (fs : List String) : String :=
  String.intercalate "," (fs.map encodeField) ++ "\r\n"

/-- The whole buffer: the concatenation of the emitted rows. -/
def encodeCsv : List (List String) → String
  | [] => ""
  | r :: rs => encodeRow r ++ encodeCsv rs

/-- A wall-clock reading, as `datetime.datetime.now()` supplies it to the V1
renderer (date plus time of day; sub-second precision is not printed). -/
structure Stamp where
  year : Nat
  month : Nat
  day : Nat
  hour : Nat
  minute : Nat
  second : Nat
deriving DecidableEq

/-- Four zero-padded digits, as `%Y` prints a year below 10000. -/
def pad4List (k : Nat) : List Char :=
  [digitChar (k / 1000 % 10), digitChar (k / 100 % 10),
   digitChar (k / 10 % 10), digitChar (k % 10)]

/-- The `strftime` pattern used in the report, rendered on the exploded
clock reading: four-digit year, then zero-padded month, day, hour, minute,
second. -/
def fmtStampList (t : Stamp) : List Char :=
  pad4List t.year ++ '-' :: pad2List t.month ++ '-' :: pad2List t.day ++
    ' ' :: pad2List t.hour ++ ':' :: pad2List t.minute ++ ':' :: pad2List t.second

/-- String form of the timestamp. -/
def fmtStamp (t : Stamp) : String := String.mk (fmtStampList t)

/-- The header row, identical in both variants. -/
def headerRow : List String :=
  ["Subscription Name", "Subscription ID", "From Date", "To Date",
   "Total Cost (USD)", "Status"]

/-- One V1 data row (`__init__.py` lines 214-221): name, id, window bounds,
`str(round(total_cost, 2))`, status. -/
def dataRowV1 (d : SubData) (start_date end_date : String) : List String :=
  [d.subscription_name, d.subscription_id, start_date, end_date,
   cellV1 (costOf d), (extractV1 d.cost_data).2]

/-- The V1 totals row (`__init__.py` lines 225-232). -/
def totalRowV1 (results : List SubData) : List String :=
  ["TOTAL", "", "", "", cellV1 (totalAll results), ""]

/-- The V1 timestamp row (`__init__.py` line 236). -/
def generatedRow (t : Stamp) : List String :=
  ["Report Generated: " ++ fmtStamp t]

/-- The V1 subscription-count row (`__init__.py` line 237). -/
def countRow (results : List SubData) : List String :=
  ["Total Subscriptions: " ++ natToDec results.length]

/-- The full row sequence the V1 renderer writes: header, one data row per
subscription, a blank separator, the totals row, another blank row, the
generation timestamp and the subscription count. -/
def csvRowsV1 (results : List SubData) (start_date end_date : String)
    (t : Stamp) : List (List String) :=
  [headerRow] ++ results.map (fun d => dataRowV1 d start_date end_date) ++
    [[], totalRowV1 results, [], generatedRow t, countRow results]

/-- Function `generate_csv` of `__init__.py` (lines 183-243): the csv text together
with the returned `total_cost_all` (which the code returns unrounded).  The
clock reading consumed by line 236 is passed explicitly. -/
def generate_csv (results : List SubData) (start_date end_date : String)
    (t : Stamp) : String × PyF :=
  (encodeCsv (csvRowsV1 results start_date end_date t), totalAll results)

/-- One V3 data row (`__init__ (3).py` lines 216-223): the cost is rendered
with `f"{total_cost:.2f}"` and the status comes from the two-way V3 rule. -/
def dataRowV3 (d : SubData) (start_date end_date : String) : List String :=
  [d.subscription_name, d.subscription_id, start_date, end_date,
   format2f (costOf d), (extractV3 d.cost_data).2]

/-- The V3 totals row (`__init__ (3).py` line 227). -/
def totalRowV3 (results : List SubData) : List String :=
  ["TOTAL", "", "", "", format2f (totalAll results), ""]

/-- The full row sequence the V3 renderer writes: header, data rows, a blank
separator and the totals row; no timestamp or count rows. -/
def csvRowsV3 (results : List SubData) (start_date end_date : String) :
    List (List String) :=
  [headerRow] ++ results.map (fun d => dataRowV3 d start_date end_date) ++
    [[], totalRowV3 results]

/-- Function `generate_csv` of `__init__ (3).py` (lines 183-233): depends only on the
results and the window; the returned total is again unrounded. -/
def generate_csv_v3 (results : List SubData) (start_date end_date : String) :
    String × PyF :=
  (encodeCsv (csvRowsV3 results start_date end_date), totalAll results)

/-- A proleptic Gregorian calendar date, as `datetime.date` stores it. -/
structure Date where
  year : ℤ
  month : Nat
  day : Nat
deriving DecidableEq

/-- Gregorian leap-year rule. -/
def isLeap (y : ℤ) : Bool :=
  y % 4 == 0 && (y % 100 != 0 || y % 400 == 0)

/-- Number of days of a month (`0` on an out-of-range month number, which a
valid date never carries). -/
def daysInMonth (y : ℤ) : Nat → Nat
  | 1 => 31
  | 2 => if isLeap y then 29 else 28
  | 3 => 31
  | 4 => 30
  | 5 => 31
  | 6 => 30
  | 7 => 31
  | 8 => 31
  | 9 => 30
  | 10 => 31
  | 11 => 30
  | 12 => 31
  | _ => 0

/-- A well-formed calendar date. -/
def Date.Valid (d : Date) : Prop :=
  1 ≤ d.month ∧ d.month ≤ 12 ∧ 1 ≤ d.day ∧ d.day ≤ daysInMonth d.year d.month

/-- The calendar predecessor of a date: the embedding of subtracting
`datetime.timedelta(days=1)`. -/
def predDate (d : Date) : Date :=
  if 1 < d.day then ⟨d.year, d.month, d.day - 1⟩
  else if 1 < d.month then ⟨d.year, d.month - 1, daysInMonth d.year (d.month - 1)⟩
  else ⟨d.year - 1, 12, 31⟩

/-- The calendar successor of a date, used to state "is the day before"
independently of `predDate`. -/
def succDate (d : Date) : Date :=
  if d.day < daysInMonth d.year d.month then ⟨d.year, d.month, d.day + 1⟩
  else if d.month < 12 then ⟨d.year, d.month + 1, 1⟩
  else ⟨d.year + 1, 1, 1⟩

/-- Function `get_previous_month_range` (lines 75-91, identical in both variants),
parameterized by the clock reading `datetime.date.today()`: replace the day
by 1, step one day back, and replace the day by 1 again; returns
(first day of previous month, last day of previous month). -/
def get_previous_month_range (today : Date) : Date × Date :=
  let first_day_this_month : Date := ⟨today.year, today.month, 1⟩
  let last_day_prev_month : Date := predDate first_day_this_month
  let first_day_prev_month : Date :=
    ⟨last_day_prev_month.year, last_day_prev_month.month, 1⟩
  (first_day_prev_month, last_day_prev_month)

/-- The process environment: `os.environ.get` returns the value of a set
variable and `none` for an unset one. -/
def Env : Type := String → Option String

/-- Python truthiness of `not os.environ.get(var)`: an unset variable and an
empty string both count as missing. -/
def envMissing (env : Env) (v : String) : Bool :=
  match env v with
  | none => true
  | some s => s == ""

/-- The `required_vars` list of `main` in `__init__.py` (lines 447-454). -/
def requiredVars : List String :=
  ["TENANT_ID", "CLIENT_ID", "CLIENT_SECRET", "AZURE_STORAGE_CONNECTION_STRING",
   "ACS_CONNECTION_STRING", "ACS_SENDER_EMAIL"]

/-- The `missing_vars` list of `main` (line 455). -/
def missingVars (env : Env) : List String :=
  requiredVars.filter (fun v => envMissing env v)

/-- An HTTP response envelope: status code and JSON body, the latter
modelled as the ordered key/value pairs `json.dumps` serializes. -/
structure Response where
  status : Nat
  body : List (String × String)
deriving DecidableEq

/-- The outbound calls the run can make, in order of the steps of `main`. -/
inductive NetEffect where
  | tokenRequest
  | listSubscriptions
  | costQuery (subscription_id : String)
  | blobUpload
  | emailSend
deriving DecidableEq

/-- The 500 response `main` builds when `missing_vars` is non-empty
(`__init__.py` lines 457-468): body keys `error` and `details` only. -/
def configMissingResponse (env : Env) : Response :=
  { status := 500
    body :=
      [("error", "Missing environment variables: " ++
          String.intercalate ", " (missingVars env)),
       ("details", "Configure environment variables in Azure Portal → Function App → Configuration → Application Settings")] }

/-- The entry point `main` of `__init__.py` (lines 438-608), shallowly: the
configuration gate (Step 1) is embedded literally; everything from Step 2 on
(token acquisition, enumeration, cost queries, rendering, delivery, and the
exception handlers around them) is abstracted as the continuation `k`, which
reports the response it produces together with the network calls it made.
On the missing-configuration path the continuation is never consulted and no
effect is recorded. -/
def main (env : Env) (k : Env → Response × List NetEffect) :
    Response × List NetEffect :=
  if missingVars env ≠ [] then (configMissingResponse env, [])
  else k env

/-- Number of characters that follow the last decimal point of a rendered
number (the whole string length when no point occurs). -/
def decimalsAfterPoint (s : String) : Nat :=
  (s.data.reverse.takeWhile (fun c => c != '.')).length

/-!  ## General helper lemmas  -/

theorem string_data_append (a b : String) : (a ++ b).data = a.data ++ b.data := rfl

theorem string_eq_of_data {a b : String} (h : a.data = b.data) : a = b := by
  cases a
  cases b
  simp only at h
  rw [h]

theorem string_append_assoc (a b c : String) : a ++ b ++ c = a ++ (b ++ c) :=
  string_eq_of_data (by simp only [string_data_append, List.append_assoc])

theorem encodeCsv_append (a b : List (List String)) :
    encodeCsv (a ++ b) = encodeCsv a ++ encodeCsv b := by
  induction a with
  | nil => rfl
  | cons r rs ih =>
      show encodeRow r ++ encodeCsv (rs ++ b) = encodeRow r ++ encodeCsv rs ++ encodeCsv b
      rw [ih, string_append_assoc]

theorem digitChar_mem_digits (k : Nat) :
    digitChar k ∈ (['0', '1', '2', '3', '4', '5', '6', '7', '8', '9'] : List Char) := by
  rcases k with _ | _ | _ | _ | _ | _ | _ | _ | _ | k <;> simp [digitChar]

theorem natToDecGo_chars (fuel : Nat) :
    ∀ (n : Nat) (c : Char), c ∈ natToDecGo fuel n → ∃ k, c = digitChar k := by
  induction fuel with
  | zero => intro n c h; simp [natToDecGo] at h
  | succ f ih =>
      intro n c h
      by_cases hn : n < 10
      · simp only [natToDecGo, if_pos hn, List.mem_singleton] at h
        exact ⟨n, h⟩
      · simp only [natToDecGo, if_neg hn, List.mem_append, List.mem_singleton] at h
        rcases h with h | h
        · exact ih _ _ h
        · exact ⟨n % 10, h⟩

theorem pad2List_chars (k : Nat) (c : Char) (h : c ∈ pad2List k) :
    ∃ j, c = digitChar j := by
  simp only [pad2List, List.mem_cons, List.mem_singleton] at h
  rcases h with h | h | h
  · exact ⟨k / 10, h⟩
  · exact ⟨k % 10, h⟩
  · simp at h

theorem pad4List_chars (k : Nat) (c : Char) (h : c ∈ pad4List k) :
    ∃ j, c = digitChar j := by
  simp only [pad4List, List.mem_cons, List.mem_singleton] at h
  rcases h with h | h | h | h | h
  · exact ⟨k / 1000 % 10, h⟩
  · exact ⟨k / 100 % 10, h⟩
  · exact ⟨k / 10 % 10, h⟩
  · exact ⟨k % 10, h⟩
  · simp at h

/-!  ## C2: the cost fetcher absorbs every failure into a no-data result  -/

/-- C2 (confirmed).  `fetch_cost_for_subscription` never propagates an
exception — its embedding is a total function over every observable outcome
of the underlying request, because the Python code catches `Timeout` and
every other `Exception` — and on a timeout, a transport error, a non-success
status, an unparseable body, or a successful response with an empty result
set, the value it hands the renderer is treated as "no data recorded" with
the cost forced to `0.0`, under both variants' extraction rules. -/
theorem fetch_failure_yields_no_data (o : FetchOutcome) (h : o.noData) :
    extractV1 (fetch_cost_for_subscription o) = (PyF.fin 0, "No usage data") ∧
    extractV3 (fetch_cost_for_subscription o) = (PyF.fin 0, "No Cost Data") := by
  cases o with
  | timeout => exact ⟨rfl, rfl⟩
  | reqError => exact ⟨rfl, rfl⟩
  | ok status parsed =>
      by_cases hs : status = 200
      · subst hs
        simp only [fetch_cost_for_subscription, ne_eq, if_neg (by decide : ¬ (200 : Nat) ≠ 200)]
        rcases h with h | h | ⟨d, hd, hrows⟩
        · exact absurd rfl h
        · subst h
          exact ⟨rfl, rfl⟩
        · subst hd
          obtain ⟨rows, cols⟩ := d
          simp only at hrows
          subst hrows
          exact ⟨rfl, rfl⟩
      · simp only [fetch_cost_for_subscription, ne_eq, if_pos (by simpa using hs)]
        exact ⟨rfl, rfl⟩

/-- Witness for C2 at a concrete outcome (a timeout). -/
theorem fetch_failure_yields_no_data_witness :
    extractV1 (fetch_cost_for_subscription FetchOutcome.timeout) =
      (PyF.fin 0, "No usage data") :=
  (fetch_failure_yields_no_data FetchOutcome.timeout trivial).1

/-!  ## C10: failed fetch and empty successful fetch are indistinguishable  -/

/-- C10 (confirmed).  A failed cost fetch (timeout, transport error or
non-success status) and a successful fetch whose result set is empty render
to exactly the same data row — same `0.00`-valued cost figure, same no-data
status label — in both variants, and both contribute the exact cost `0.0`
to the grand total, so the report cannot distinguish the two cases. -/
theorem failed_and_empty_fetch_render_identically
    (nm id s e : String) (o : FetchOutcome) (d : CostData)
    (hfail : o.failed) (hrows : d.rows = []) :
    dataRowV1 ⟨nm, id, fetch_cost_for_subscription o⟩ s e =
      dataRowV1 ⟨nm, id, d⟩ s e ∧
    dataRowV3 ⟨nm, id, fetch_cost_for_subscription o⟩ s e =
      dataRowV3 ⟨nm, id, d⟩ s e ∧
    costOf ⟨nm, id, fetch_cost_for_subscription o⟩ = PyF.fin 0 ∧
    costOf ⟨nm, id, d⟩ = PyF.fin 0 := by
  obtain ⟨rows, cols⟩ := d
  simp only at hrows
  subst hrows
  have hempty : fetch_cost_for_subscription o = emptyCostData := by
    cases o with
    | timeout => rfl
    | reqError => rfl
    | ok status parsed =>
        simp only [FetchOutcome.failed] at hfail
        simp only [fetch_cost_for_subscription, ne_eq, if_pos (by simpa using hfail)]
  rw [hempty]
  exact ⟨rfl, rfl, rfl, rfl⟩

/-- Witness for C10 at a concrete failure and a concrete empty success. -/
theorem failed_and_empty_fetch_render_identically_witness :
    dataRowV1 ⟨"Sub A", "id1",
        fetch_cost_for_subscription FetchOutcome.timeout⟩ "2024-05-01" "2024-05-31" =
      dataRowV1 ⟨"Sub A", "id1", (⟨[], ["Cost", "Currency"]⟩ : CostData)⟩
        "2024-05-01" "2024-05-31" :=
  (failed_and_empty_fetch_render_identically "Sub A" "id1" "2024-05-01" "2024-05-31"
    FetchOutcome.timeout ⟨[], ["Cost", "Currency"]⟩ trivial rfl).1

/-!  ## C6: status labels  -/

/-- C6 (corrected, counterexample `claim_c6_counterexample`).  The V1
renderer's status is the claimed three-way function of the presence of data
and the sign of the cost, with three distinct labels; the V3 renderer's
status however is only a two-way function — `"No Cost Data"` exactly on
empty result sets and `"Success"` on every non-empty one, whatever the cost
value is. -/
theorem status_three_way_v1_two_way_v3 (cd : CostData) :
    ((extractV1 cd).2 = "No usage data" ↔ cd.rows = []) ∧
    ((extractV1 cd).2 = "Active" ↔ cd.rows ≠ [] ∧ posF (extractV1 cd).1 = true) ∧
    ((extractV1 cd).2 = "No charges" ↔ cd.rows ≠ [] ∧ posF (extractV1 cd).1 = false) ∧
    ((extractV3 cd).2 = "No Cost Data" ↔ cd.rows = []) ∧
    ((extractV3 cd).2 = "Success" ↔ cd.rows ≠ []) := by
  obtain ⟨rows, cols⟩ := cd
  cases rows with
  | nil =>
      refine ⟨by simp [extractV1], ?_, ?_, by simp [extractV3], ?_⟩ <;>
        simp [extractV1, extractV3]
  | cons r rs =>
      cases hp : posF (match r with | [] => PyF.fin 0 | x :: _ => x) <;>
        simp [extractV1, extractV3, hp]

/-- Counterexample for C6 as stated: in the V3 renderer, a recorded cost of
exactly zero and a recorded positive cost produce the same status label, so
there is no "second distinct label" for the zero case. -/
theorem claim_c6_counterexample :
    (extractV3 ⟨[[PyF.fin 0]], []⟩).2 = (extractV3 ⟨[[PyF.fin 5]], []⟩).2 ∧
    posF (extractV3 ⟨[[PyF.fin 0]], []⟩).1 = false ∧
    posF (extractV3 ⟨[[PyF.fin 5]], []⟩).1 = true := by
  refine ⟨rfl, by simp [extractV3, posF], by simp [extractV3, posF]⟩

/-- Witness for C6 at a concrete cost-data value. -/
theorem status_three_way_v1_two_way_v3_witness :
    (extractV1 ⟨[], ["Cost"]⟩).2 = "No usage data" :=
  ((status_three_way_v1_two_way_v3 ⟨[], ["Cost"]⟩).1).2 rfl

/-!  ## C9: rendering the empty result list  -/

/-- C9 (confirmed).  Rendering an empty result list produces the header row
(the output starts with exactly the header line), zero data rows, and a
grand total equal to zero: the returned total is the float `0.0` and the
TOTAL row carries its rendering. -/
theorem render_empty_results (s e : String) (t : Stamp) :
    generate_csv [] s e t =
      (encodeCsv [headerRow, [], totalRowV1 [], [], generatedRow t, countRow []],
        PyF.fin 0) ∧
    (([] : List SubData).map fun d => dataRowV1 d s e) = [] ∧
    (generate_csv [] s e t).2 = PyF.fin 0 ∧
    (generate_csv [] s e t).1 =
      "Subscription Name,Subscription ID,From Date,To Date,Total Cost (USD),Status\r\n" ++
        encodeCsv [[], totalRowV1 [], [], generatedRow t, countRow []] := by
  refine ⟨rfl, rfl, rfl, ?_⟩
  show encodeCsv (csvRowsV1 [] s e t) = _
  have hsplit : csvRowsV1 [] s e t =
      [headerRow] ++ [[], totalRowV1 [], [], generatedRow t, countRow []] := rfl
  rw [hsplit, encodeCsv_append]
  have hhead : encodeCsv [headerRow] =
      "Subscription Name,Subscription ID,From Date,To Date,Total Cost (USD),Status\r\n" := by
    decide
  rw [hhead]

/-!  ## C3: the previous-month window  -/

/-- C3 (confirmed).  For every valid calendar date, the previous-month range
computation returns a window whose end is the day before the first day of
the input date's month (its calendar successor is that first day), whose
start is the first day of the end's month, and a date in January of year `Y`
yields December 1 through December 31 of year `Y - 1`. -/
theorem previous_month_range_correct (d : Date) (hv : d.Valid) :
    succDate (get_previous_month_range d).2 = ⟨d.year, d.month, 1⟩ ∧
    (get_previous_month_range d).1 =
      ⟨(get_previous_month_range d).2.year, (get_previous_month_range d).2.month, 1⟩ ∧
    (d.month = 1 →
      get_previous_month_range d = (⟨d.year - 1, 12, 1⟩, ⟨d.year - 1, 12, 31⟩)) := by
  obtain ⟨y, m, day⟩ := d
  obtain ⟨hm1, hm12, -, -⟩ := hv
  simp only at hm1 hm12
  by_cases hm : 1 < m
  · have hpred : predDate ⟨y, m, 1⟩ = ⟨y, m - 1, daysInMonth y (m - 1)⟩ := by
      rw [predDate]
      simp only [if_neg (by omega : ¬ (1 : Nat) < 1), if_pos hm]
    have hrange : get_previous_month_range ⟨y, m, day⟩ =
        (⟨y, m - 1, 1⟩, ⟨y, m - 1, daysInMonth y (m - 1)⟩) := by
      simp only [get_previous_month_range, hpred]
    refine ⟨?_, by rw [hrange], fun h1 => absurd (show m = 1 from h1) (by omega)⟩
    rw [hrange]
    rw [succDate]
    simp only [if_neg (by omega : ¬ daysInMonth y (m - 1) < daysInMonth y (m - 1)),
      if_pos (by omega : m - 1 < 12)]
    have : m - 1 + 1 = m := by omega
    rw [this]
  · have hm' : m = 1 := by omega
    subst hm'
    have hpred : predDate ⟨y, 1, 1⟩ = ⟨y - 1, 12, 31⟩ := by
      rw [predDate]
      simp only [if_neg (by omega : ¬ (1 : Nat) < 1), if_neg (by omega : ¬ (1 : Nat) < 1)]
    have hrange : get_previous_month_range ⟨y, 1, day⟩ =
        (⟨y - 1, 12, 1⟩, ⟨y - 1, 12, 31⟩) := by
      simp only [get_previous_month_range, hpred]
    refine ⟨?_, by rw [hrange], fun _ => hrange⟩
    rw [hrange]
    rw [succDate]
    have hdim : daysInMonth (y - 1) 12 = 31 := rfl
    simp only [hdim, if_neg (by omega : ¬ (31 : Nat) < 31),
      if_neg (by omega : ¬ (12 : Nat) < 12)]
    have : y - 1 + 1 = y := by ring
    rw [this]

/-- Witness for C3 at a January date, exhibiting the year rollover. -/
theorem previous_month_range_correct_witness :
    get_previous_month_range ⟨2025, 1, 15⟩ = (⟨2024, 12, 1⟩, ⟨2024, 12, 31⟩) := by
  have h := (previous_month_range_correct ⟨2025, 1, 15⟩
    ⟨by decide, by decide, by decide, by decide⟩).2.2 rfl
  simpa using h

/-!  ## C1: the grand total  -/

theorem totalAll_fold_fin (l : List SubData) :
    ∀ (qs : List ℚ) (a : ℚ), l.map costOf = qs.map PyF.fin →
      l.foldl (fun acc d => addF acc (costOf d)) (PyF.fin a) = PyF.fin (a + qs.sum) := by
  induction l with
  | nil =>
      intro qs a h
      cases qs with
      | nil => simp
      | cons q qs2 => simp at h
  | cons d l2 ih =>
      intro qs a h
      cases qs with
      | nil => simp at h
      | cons q qs2 =>
          simp only [List.map_cons, List.cons.injEq] at h
          obtain ⟨hq, hrest⟩ := h
          simp only [List.foldl_cons]
          have hstep : addF (PyF.fin a) (costOf d) = PyF.fin (a + q) := by
            rw [hq]
            rfl
          rw [hstep, ih qs2 (a + q) hrest, List.sum_cons, add_assoc]

theorem totalAll_fin (results : List SubData) (qs : List ℚ)
    (h : results.map costOf = qs.map PyF.fin) :
    totalAll results = PyF.fin qs.sum := by
  have := totalAll_fold_fin results qs 0 h
  simpa [totalAll] using this

/-- C1 (corrected, counterexample `claim_c1_counterexample`).  When every
per-row cost is a finite value, the grand total the V1 renderer returns is
the exact, unrounded sum of the per-row costs, and the cell of the TOTAL
row (the row at index `results.length + 2`, after the header, the data rows
and the blank separator) is the rendering of `round(sum, 2)` — the rounding
of the sum of unrounded costs, not the sum of the rounded row figures. -/
theorem grand_total_is_rounded_sum_of_unrounded
    (results : List SubData) (s e : String) (t : Stamp) (qs : List ℚ)
    (h : results.map costOf = qs.map PyF.fin) :
    (generate_csv results s e t).2 = PyF.fin qs.sum ∧
    (csvRowsV1 results s e t).getD (results.length + 2) [] =
      ["TOTAL", "", "", "", cellV1 (PyF.fin qs.sum), ""] := by
  have htot : totalAll results = PyF.fin qs.sum := totalAll_fin results qs h
  constructor
  · show totalAll results = PyF.fin qs.sum
    exact htot
  · have hshape : csvRowsV1 results s e t =
        ([headerRow] ++ results.map fun d => dataRowV1 d s e) ++
          [[], totalRowV1 results, [], generatedRow t, countRow results] := by
      simp [csvRowsV1]
    rw [hshape]
    have hlen : ([headerRow] ++ results.map fun d => dataRowV1 d s e).length =
        results.length + 1 := by
      simp
    rw [List.getD_append_right _ _ _ _ (by omega)]
    rw [hlen]
    have hidx : results.length + 2 - (results.length + 1) = 1 := by omega
    rw [hidx]
    show totalRowV1 results = _
    rw [totalRowV1, htot]

/-- Witness for C1 at a one-element result list with cost `1.004`. -/
theorem grand_total_is_rounded_sum_of_unrounded_witness :
    (generate_csv [⟨"Sub A", "id1", ⟨[[PyF.fin (251/250)]], []⟩⟩]
        "2024-05-01" "2024-05-31" ⟨2024, 6, 1, 0, 0, 0⟩).2 =
      PyF.fin ([(251/250 : ℚ)].sum) :=
  (grand_total_is_rounded_sum_of_unrounded
    [⟨"Sub A", "id1", ⟨[[PyF.fin (251/250)]], []⟩⟩]
    "2024-05-01" "2024-05-31" ⟨2024, 6, 1, 0, 0, 0⟩ [251/250] rfl).1

/-- Counterexample for C1 as stated: with two rows of cost `1.004` each, the
rendered row figures are both `1.0` (value `1.00`, so their rounded sum is
`2.00`), but the returned grand total is not `2` and the TOTAL cell shows
`2.01` — the code rounds the sum of unrounded costs instead of summing the
rounded row figures. -/
theorem claim_c1_counterexample :
    (generate_csv [⟨"Sub A", "id1", ⟨[[PyF.fin (251/250)]], []⟩⟩,
                   ⟨"Sub B", "id2", ⟨[[PyF.fin (251/250)]], []⟩⟩]
        "2024-05-01" "2024-05-31" ⟨2024, 6, 1, 0, 0, 0⟩).2 ≠ PyF.fin 2 ∧
    cellV1 (costOf ⟨"Sub A", "id1", ⟨[[PyF.fin (251/250)]], []⟩⟩) = "1.0" ∧
    cellV1 (totalAll [⟨"Sub A", "id1", ⟨[[PyF.fin (251/250)]], []⟩⟩,
                      ⟨"Sub B", "id2", ⟨[[PyF.fin (251/250)]], []⟩⟩]) = "2.01" ∧
    cellV1 (PyF.fin 2) = "2.0" := by
  have hcost : costOf ⟨"Sub A", "id1", ⟨[[PyF.fin (251/250)]], []⟩⟩ =
      PyF.fin (251/250) := rfl
  have htot : totalAll [⟨"Sub A", "id1", ⟨[[PyF.fin (251/250)]], []⟩⟩,
      ⟨"Sub B", "id2", ⟨[[PyF.fin (251/250)]], []⟩⟩] = PyF.fin (0 + 251/250 + 251/250) := rfl
  refine ⟨?_, ?_, ?_, ?_⟩
  · show totalAll _ ≠ PyF.fin 2
    rw [htot]
    intro hcontra
    injection hcontra with hq
    norm_num at hq
  · rw [hcost]
    have h1 : roundHE (100 * (251/250 : ℚ)) = 100 := by unfold roundHE; norm_num
    simp only [cellV1, h1]
    decide
  · rw [htot]
    have h1 : roundHE (100 * (0 + 251/250 + 251/250 : ℚ)) = 201 := by
      unfold roundHE; norm_num
    simp only [cellV1, h1]
    decide
  · have h1 : roundHE (100 * (2 : ℚ)) = 200 := by unfold roundHE; norm_num
    simp only [cellV1, h1]
    decide

/-!  ## C7: non-finite cost values  -/

theorem foldl_addF_nan (l : List SubData) :
    l.foldl (fun acc d => addF acc (costOf d)) PyF.nan = PyF.nan := by
  induction l with
  | nil => rfl
  | cons d l2 ih =>
      simp only [List.foldl_cons]
      have hstep : addF PyF.nan (costOf d) = PyF.nan := by
        cases h : costOf d <;> rfl
      rw [hstep, ih]

theorem totalAll_nan (results : List SubData) (d : SubData)
    (hmem : d ∈ results) (hnan : costOf d = PyF.nan) :
    totalAll results = PyF.nan := by
  rw [totalAll]
  have haux : ∀ (l : List SubData) (acc : PyF), d ∈ l →
      l.foldl (fun acc2 x => addF acc2 (costOf x)) acc = PyF.nan := by
    intro l
    induction l with
    | nil => intro acc h; simp at h
    | cons x l2 ih =>
        intro acc h
        rcases List.mem_cons.mp h with h | h
        · subst h
          simp only [List.foldl_cons]
          have hstep : addF acc (costOf d) = PyF.nan := by
            rw [hnan]
            cases acc <;> rfl
          rw [hstep]
          exact foldl_addF_nan l2
        · simp only [List.foldl_cons]
          exact ih _ h
  exact haux results (PyF.fin 0) hmem

theorem costOf_nan_shape (cd : CostData)
    (h : (extractV1 cd).1 = PyF.nan) :
    ∃ rs rest, cd.rows = (PyF.nan :: rest) :: rs := by
  obtain ⟨rows, cols⟩ := cd
  cases rows with
  | nil => simp [extractV1] at h
  | cons r rs =>
      cases r with
      | nil => simp [extractV1] at h
      | cons x rest =>
          simp only [extractV1] at h
          subst h
          exact ⟨rs, rest, rfl⟩

/-- C7 (corrected, counterexample `claim_c7_counterexample`).  The renderer
does not fail on a NaN cost and does not substitute zero for it: a NaN cost
cell flows through unchanged — its data row shows the cost text `nan` with
the ordinary status label `No charges` (the same label a legitimate
zero-charge row gets, so nothing flags the malformed value), and the
returned grand total of the whole report becomes NaN. -/
theorem nan_cost_flows_through (results : List SubData) (s e : String)
    (t : Stamp) (d : SubData) (hmem : d ∈ results)
    (hnan : costOf d = PyF.nan) :
    (generate_csv results s e t).2 = PyF.nan ∧
    dataRowV1 d s e =
      [d.subscription_name, d.subscription_id, s, e, "nan", "No charges"] := by
  constructor
  · show totalAll results = PyF.nan
    exact totalAll_nan results d hmem hnan
  · obtain ⟨nm, id, cd⟩ := d
    have hshape := costOf_nan_shape cd hnan
    obtain ⟨rs, rest, hrows⟩ := hshape
    obtain ⟨rows, cols⟩ := cd
    simp only at hrows
    subst hrows
    rfl

/-- Witness for C7 at a one-element result list carrying a NaN cost. -/
theorem nan_cost_flows_through_witness :
    (generate_csv [⟨"Sub N", "idn", ⟨[[PyF.nan]], []⟩⟩] "2024-05-01" "2024-05-31"
        ⟨2024, 6, 1, 0, 0, 0⟩).2 = PyF.nan :=
  (nan_cost_flows_through [⟨"Sub N", "idn", ⟨[[PyF.nan]], []⟩⟩]
    "2024-05-01" "2024-05-31" ⟨2024, 6, 1, 0, 0, 0⟩
    ⟨"Sub N", "idn", ⟨[[PyF.nan]], []⟩⟩ (List.mem_singleton.mpr rfl) rfl).1

/-- Counterexample for C7 as stated: on an input whose cost is NaN the
renderer neither raises nor rejects the row nor substitutes zero with a
status flag — it returns a normal report whose cost cell is `nan`, whose
status equals the label of an ordinary zero-charge row, and whose returned
total is NaN; the cell differs from the rendering of a substituted zero. -/
theorem claim_c7_counterexample :
    (generate_csv [⟨"S", "id", ⟨[[PyF.nan]], []⟩⟩] "s" "e" ⟨2024, 1, 1, 0, 0, 0⟩).2 =
      PyF.nan ∧
    dataRowV1 ⟨"S", "id", ⟨[[PyF.nan]], []⟩⟩ "s" "e" =
      ["S", "id", "s", "e", "nan", "No charges"] ∧
    (extractV1 ⟨[[PyF.nan]], []⟩).2 = (extractV1 ⟨[[PyF.fin 0]], []⟩).2 ∧
    cellV1 (PyF.fin 0) = "0.0" ∧ "nan" ≠ "0.0" := by
  refine ⟨rfl, rfl, ?_, ?_, by decide⟩
  · show "No charges" = _
    simp only [extractV1, posF]
    norm_num
  · have h1 : roundHE (100 * (0 : ℚ)) = 0 := by unfold roundHE; norm_num
    simp only [cellV1, h1]
    decide

/-!  ## C8: the configuration gate of `main`  -/

/-- C8 (corrected, counterexample `claim_c8_counterexample`).  Whenever a
required configuration entry is absent (or empty), `main` short-circuits to
a 500 response before consulting the rest of the run at all — the result is
the same for every continuation, and the recorded network-effect trace is
empty — but the body of that response carries only the keys `error` and
`details`: it has no `type` entry, so it is not marked with the
`ConfigurationError` kind (that kind is attached only by the `ValueError`
handler, which the missing-configuration path never reaches). -/
theorem missing_config_short_circuits (env : Env)
    (k : Env → Response × List NetEffect) (h : missingVars env ≠ []) :
    main env k = (configMissingResponse env, []) ∧
    (main env k).1.status = 500 ∧
    (main env k).1.body.lookup "type" = none ∧
    (main env k).2 = [] := by
  have hmain : main env k = (configMissingResponse env, []) := by
    rw [main, if_pos h]
  refine ⟨hmain, by rw [hmain]; rfl, ?_, by rw [hmain]⟩
  rw [hmain]
  show (configMissingResponse env).body.lookup "type" = none
  rfl

/-- Witness for C8 at the empty environment and a continuation that would
report a network call if it were ever run. -/
theorem missing_config_short_circuits_witness :
    main (fun _ => none)
        (fun _ => (⟨200, [("status", "success")]⟩, [NetEffect.tokenRequest])) =
      (configMissingResponse (fun _ => none), []) :=
  (missing_config_short_circuits (fun _ => none)
    (fun _ => (⟨200, [("status", "success")]⟩, [NetEffect.tokenRequest]))
    (by decide)).1

/-- Counterexample for C8 as stated: with every variable unset, the response
is a 500 with no network call, but its body has no `type` key at all — in
particular its kind is not `ConfigurationError`. -/
theorem claim_c8_counterexample :
    (main (fun _ => none) (fun _ => (⟨200, []⟩, []))).1.status = 500 ∧
    (main (fun _ => none) (fun _ => (⟨200, []⟩, []))).2 = [] ∧
    (main (fun _ => none) (fun _ => (⟨200, []⟩, []))).1.body.lookup "type" = none ∧
    ¬ (main (fun _ => none) (fun _ => (⟨200, []⟩, []))).1.body.lookup "type" =
        some "ConfigurationError" := by
  have hmain : main (fun _ => none) (fun _ => (⟨200, []⟩, [])) =
      (configMissingResponse (fun _ => none), []) := by
    rw [main, if_pos (by decide)]
  rw [hmain]
  refine ⟨rfl, rfl, rfl, ?_⟩
  intro hcontra
  have : (none : Option String) = some "ConfigurationError" := by
    rw [← hcontra]
    rfl
  simp at this

/-!  ## C5: decimal form of the rendered cost figures  -/

theorem takeWhile_all_then_stop (p : Char → Bool) :
    ∀ (a : List Char) (x : Char) (b : List Char),
      (∀ c ∈ a, p c = true) → p x = false → (a ++ x :: b).takeWhile p = a := by
  intro a
  induction a with
  | nil =>
      intro x b _ hx
      simp [List.takeWhile_cons, hx]
  | cons c cs ih =>
      intro x b hall hx
      have hc : p c = true := hall c (by simp)
      simp only [List.cons_append, List.takeWhile_cons, hc, if_true]
      rw [ih x b (fun y hy => hall y (by simp [hy])) hx]

theorem digits_sub_decimalChars :
    ∀ c ∈ (['0', '1', '2', '3', '4', '5', '6', '7', '8', '9'] : List Char),
      c ∈ decimalChars := by
  decide

theorem digits_ne_dot :
    ∀ c ∈ (['0', '1', '2', '3', '4', '5', '6', '7', '8', '9'] : List Char),
      (c != '.') = true := by
  decide

theorem takeWhile_rev_pad2 (pre : List Char) (k : Nat) :
    (List.takeWhile (fun c => c != '.')
      ((pad2List k).reverse ++ '.' :: pre)).length = 2 := by
  have hall : ∀ c ∈ (pad2List k).reverse, (c != '.') = true := by
    intro c hc
    rw [List.mem_reverse] at hc
    obtain ⟨j, rfl⟩ := pad2List_chars _ c hc
    exact digits_ne_dot _ (digitChar_mem_digits j)
  rw [takeWhile_all_then_stop _ _ '.' pre hall (by decide)]
  simp [pad2List]

theorem format2f_fin_two_decimals (q : ℚ) :
    decimalsAfterPoint (format2f (PyF.fin q)) = 2 := by
  rw [format2f, decimalsAfterPoint]
  show (List.takeWhile (fun c => c != '.')
      (((if roundHE (100 * q) < 0 then ['-'] else []) ++
        natToDecList ((roundHE (100 * q)).natAbs / 100) ++
          '.' :: pad2List ((roundHE (100 * q)).natAbs % 100)).reverse)).length = 2
  simp only [List.reverse_append, List.reverse_cons, List.append_assoc,
    List.singleton_append]
  exact takeWhile_rev_pad2 _ _

theorem format2f_fin_chars (q : ℚ) :
    ∀ c ∈ (format2f (PyF.fin q)).data, c ∈ decimalChars := by
  intro c hc
  rw [format2f] at hc
  simp only [List.mem_append, List.mem_cons] at hc
  rcases hc with (hc | hc) | hc | hc
  · by_cases hneg : roundHE (100 * q) < 0
    · rw [if_pos hneg] at hc
      simp only [List.mem_singleton] at hc
      subst hc
      decide
    · rw [if_neg hneg] at hc
      simp at hc
  · obtain ⟨j, rfl⟩ := natToDecGo_chars _ _ c hc
    exact digits_sub_decimalChars _ (digitChar_mem_digits j)
  · subst hc
    decide
  · obtain ⟨j, rfl⟩ := pad2List_chars _ c hc
    exact digits_sub_decimalChars _ (digitChar_mem_digits j)

/-- C5 (corrected, counterexample `claim_c5_counterexample`).  In the V3
(email-only) renderer every finite cost is printed in fixed-point form with
exactly two digits after the decimal point, out of digits, point and minus
sign only — never scientific notation.  The V1 renderer does not share this
property: it prints `str(round(cost, 2))`, which drops a trailing zero. -/
theorem v3_cost_cell_fixed_point (d : SubData) (s e : String) (q : ℚ)
    (h : costOf d = PyF.fin q) :
    (dataRowV3 d s e).getD 4 "" = format2f (PyF.fin q) ∧
    decimalsAfterPoint (format2f (PyF.fin q)) = 2 ∧
    ∀ c ∈ (format2f (PyF.fin q)).data, c ∈ decimalChars := by
  refine ⟨?_, format2f_fin_two_decimals q, format2f_fin_chars q⟩
  show format2f (costOf d) = format2f (PyF.fin q)
  rw [h]

/-- Witness for C5 at a concrete cost of `1.256` (printed `1.26`). -/
theorem v3_cost_cell_fixed_point_witness :
    (dataRowV3 ⟨"Sub A", "id1", ⟨[[PyF.fin (157/125)]], []⟩⟩
        "2024-05-01" "2024-05-31").getD 4 "" = format2f (PyF.fin (157/125)) :=
  (v3_cost_cell_fixed_point ⟨"Sub A", "id1", ⟨[[PyF.fin (157/125)]], []⟩⟩
    "2024-05-01" "2024-05-31" (157/125) rfl).1

/-- Counterexample for C5 as stated: in the V1 renderer a recorded cost of
exactly zero is printed as `0.0` — one decimal digit, not two. -/
theorem claim_c5_counterexample :
    (dataRowV1 ⟨"Sub B", "id2", ⟨[[PyF.fin 0]], []⟩⟩
        "2024-05-01" "2024-05-31").getD 4 "" = "0.0" ∧
    decimalsAfterPoint "0.0" = 1 := by
  constructor
  · show cellV1 (costOf ⟨"Sub B", "id2", ⟨[[PyF.fin 0]], []⟩⟩) = "0.0"
    have hc : costOf ⟨"Sub B", "id2", ⟨[[PyF.fin 0]], []⟩⟩ = PyF.fin 0 := rfl
    rw [hc]
    have h1 : roundHE (100 * (0 : ℚ)) = 0 := by unfold roundHE; norm_num
    simp only [cellV1, h1]
    decide
  · decide

/-!  ## C4: determinism of the V1 renderer  -/

theorem any_bad_pad2 (k : Nat) :
    (pad2List k).any (fun c => c == ',' || c == '"' || c == '\r' || c == '\n') =
      false := by
  have hb : ∀ c ∈ (['0', '1', '2', '3', '4', '5', '6', '7', '8', '9'] : List Char),
      (c == ',' || c == '"' || c == '\r' || c == '\n') = false := by decide
  simp only [pad2List, List.any_cons, List.any_nil, Bool.or_false]
  rw [hb _ (digitChar_mem_digits (k / 10)), hb _ (digitChar_mem_digits (k % 10))]
  rfl

theorem any_bad_pad4 (k : Nat) :
    (pad4List k).any (fun c => c == ',' || c == '"' || c == '\r' || c == '\n') =
      false := by
  have hb : ∀ c ∈ (['0', '1', '2', '3', '4', '5', '6', '7', '8', '9'] : List Char),
      (c == ',' || c == '"' || c == '\r' || c == '\n') = false := by decide
  simp only [pad4List, List.any_cons, List.any_nil, Bool.or_false]
  rw [hb _ (digitChar_mem_digits (k / 1000 % 10)), hb _ (digitChar_mem_digits (k / 100 % 10)),
    hb _ (digitChar_mem_digits (k / 10 % 10)), hb _ (digitChar_mem_digits (k % 10))]
  rfl

theorem fieldNeedsQuote_generated (t : Stamp) :
    fieldNeedsQuote ("Report Generated: " ++ fmtStamp t) = false := by
  rw [fieldNeedsQuote, string_data_append, List.any_append]
  have h1 : ("Report Generated: ").data.any
      (fun c => c == ',' || c == '"' || c == '\r' || c == '\n') = false := by decide
  have h2 : (fmtStamp t).data.any
      (fun c => c == ',' || c == '"' || c == '\r' || c == '\n') = false := by
    show (fmtStampList t).any _ = false
    rw [fmtStampList]
    simp only [List.any_append, List.any_cons]
    rw [any_bad_pad4, any_bad_pad2, any_bad_pad2, any_bad_pad2, any_bad_pad2,
      any_bad_pad2]
    decide
  rw [h1, h2]
  rfl

theorem encodeField_generated (t : Stamp) :
    encodeField ("Report Generated: " ++ fmtStamp t) =
      "Report Generated: " ++ fmtStamp t := by
  rw [encodeField, fieldNeedsQuote_generated]
  rfl

theorem generate_csv_shape (results : List SubData) (s e : String) (t : Stamp) :
    (generate_csv results s e t).1 =
      encodeCsv ([headerRow] ++ (results.map fun d => dataRowV1 d s e) ++
          [[], totalRowV1 results, []]) ++
        (("Report Generated: " ++ fmtStamp t) ++
          ("\r\n" ++ encodeCsv [countRow results])) := by
  show encodeCsv (csvRowsV1 results s e t) = _
  have hrows : csvRowsV1 results s e t =
      ([headerRow] ++ (results.map fun d => dataRowV1 d s e) ++
          [[], totalRowV1 results, []]) ++
        (generatedRow t :: [countRow results]) := by
    simp only [csvRowsV1, List.cons_append, List.nil_append, List.append_assoc]
  rw [hrows, encodeCsv_append]
  have h1 : encodeCsv (generatedRow t :: [countRow results]) =
      (("Report Generated: " ++ fmtStamp t) ++
        ("\r\n" ++ encodeCsv [countRow results])) := by
    show encodeRow (generatedRow t) ++ encodeCsv [countRow results] = _
    have h2 : encodeRow (generatedRow t) =
        ("Report Generated: " ++ fmtStamp t) ++ "\r\n" := by
      show String.intercalate ","
          [encodeField ("Report Generated: " ++ fmtStamp t)] ++ "\r\n" = _
      rw [encodeField_generated]
      rfl
    rw [h2, string_append_assoc]
  rw [h1]

theorem fmtStamp_eq_of_generate_csv_eq (results : List SubData) (s e : String)
    (t1 t2 : Stamp) (h : generate_csv results s e t1 = generate_csv results s e t2) :
    fmtStamp t1 = fmtStamp t2 := by
  have h1 := congrArg Prod.fst h
  rw [generate_csv_shape, generate_csv_shape] at h1
  have h2 := congrArg String.data h1
  simp only [string_data_append, List.append_assoc] at h2
  have h3 := List.append_cancel_left h2
  have h4 := List.append_cancel_left h3
  have h5 := List.append_cancel_right h4
  exact string_eq_of_data h5

/-- C4 (corrected, counterexample `claim_c4_counterexample`).  The V1
renderer is not a function of the results and window alone: its output
embeds the wall-clock generation timestamp, so two runs on identical inputs
produce byte-identical text exactly when their formatted generation
timestamps (to the second) coincide.  The V3 renderer takes no clock input
— its embedding `generate_csv_v3` depends only on results and window — so
only the email-only variant satisfies the claimed idempotence. -/
theorem render_deterministic_modulo_timestamp (results : List SubData)
    (s e : String) (t1 t2 : Stamp) :
    generate_csv results s e t1 = generate_csv results s e t2 ↔
      fmtStamp t1 = fmtStamp t2 := by
  constructor
  · exact fmtStamp_eq_of_generate_csv_eq results s e t1 t2
  · intro h
    have hrow : generatedRow t1 = generatedRow t2 := by
      rw [generatedRow, generatedRow, h]
    show (encodeCsv (csvRowsV1 results s e t1), totalAll results) = _
    rw [csvRowsV1, hrow]
    rfl

/-- Counterexample for C4 as stated: the same results and window rendered at
two clock readings one second apart give different bytes. -/
theorem claim_c4_counterexample :
    generate_csv [] "2024-06-01" "2024-06-30" ⟨2024, 7, 1, 0, 0, 0⟩ ≠
      generate_csv [] "2024-06-01" "2024-06-30" ⟨2024, 7, 1, 0, 0, 1⟩ := by
  intro h
  have heq := fmtStamp_eq_of_generate_csv_eq [] "2024-06-01" "2024-06-30"
    ⟨2024, 7, 1, 0, 0, 0⟩ ⟨2024, 7, 1, 0, 0, 1⟩ h
  have h2 := congrArg String.data heq
  exact absurd h2 (by decide)

end MonthlyReport
